import Mathlib

/-!
Verification of the financial RAG agent repository.

Text is modelled as lists of characters (Python str values); the helper
Str abbreviates List Char.  Python floats are modelled as exact rationals:
every numeric value reached by the claims is exactly representable, so the
rational model agrees with the float semantics on all statements proved
here.  Fallible Python code (raising functions wrapped in try/except) is
modelled with Except.
-/

abbrev Str := List Char

instance {ε α : Type} [DecidableEq ε] [DecidableEq α] : DecidableEq (Except ε α) := fun x y =>
  match x, y with
  | .ok a, .ok b =>
    if h : a = b then .isTrue (by rw [h]) else .isFalse (by simp [h])
  | .error a, .error b =>
    if h : a = b then .isTrue (by rw [h]) else .isFalse (by simp [h])
  | .ok _, .error _ => .isFalse (by simp)
  | .error _, .ok _ => .isFalse (by simp)

/-- Python str.lower, restricted to ASCII case mapping. -/
def lowerL (cs : Str) : Str := cs.map Char.toLower

/-- Python whitespace class (ASCII part), as used by str.strip and regex s-class. -/
def isSpaceChar (c : Char) : Bool :=
  c = ' ' || c = '\t' || c = '\n' || c = '\r' || c = Char.ofNat 11 || c = Char.ofNat 12

/-- Python str.strip(): remove leading and trailing whitespace. -/
def stripWs (cs : Str) : Str :=
  ((cs.dropWhile isSpaceChar).reverse.dropWhile isSpaceChar).reverse

/-- Is pat a prefix of cs (character-wise). -/
def isPrefixL : Str → Str → Bool
  | [], _ => true
  | _ :: _, [] => false
  | a :: as, b :: bs => a = b && isPrefixL as bs

/-- Python substring membership: pat in hay. -/
def containsSub (hay pat : Str) : Bool :=
  match hay with
  | [] => pat.isEmpty
  | _ :: t => isPrefixL pat hay || containsSub t pat

/-- Python str.rstrip(c): drop all trailing occurrences of c. -/
def rstrip (c : Char) (cs : Str) : Str :=
  (cs.reverse.dropWhile (fun x => x = c)).reverse

/-- Python str.replace(pat, rep), leftmost non-overlapping, fuelled. -/
def replaceL : Nat → Str → Str → Str → Str
  | 0, _, _, cs => cs
  | _, _, _, [] => []
  | f + 1, pat, rep, c :: rest =>
    if isPrefixL pat (c :: rest) then
      rep ++ replaceL f pat rep ((c :: rest).drop pat.length)
    else
      c :: replaceL f pat rep rest

/-- Decimal digit character for a digit value below 10. -/
def digitChar : Nat → Char
  | 0 => '0' | 1 => '1' | 2 => '2' | 3 => '3' | 4 => '4'
  | 5 => '5' | 6 => '6' | 7 => '7' | 8 => '8' | _ => '9'

/-- Decimal rendering of a natural number, fuelled structural recursion. -/
def natStrAux : Nat → Nat → Str
  | 0, n => [digitChar n]
  | f + 1, n =>
    if n < 10 then [digitChar n]
    else natStrAux f (n / 10) ++ [digitChar (n % 10)]

/-- Decimal rendering of a natural number, as Python str(int) does for nonnegatives. -/
def natStr (n : Nat) : Str := natStrAux n n

/-- Python str(int). -/
def intStr (z : Int) : Str :=
  if z < 0 then '-' :: natStr z.natAbs else natStr z.toNat

/-!
Exact rational numbers used to model Python float values.  The numerator is
an Int and the denominator a Nat; every operation normalizes its result, so
values produced by the model are in lowest terms with positive denominator.
(The library rational type is avoided because its arithmetic is declared
irreducible, which blocks kernel evaluation of concrete instances.)
-/

structure PyRat where
  n : Int
  d : Nat
deriving DecidableEq, Repr

def pyNorm (x : PyRat) : PyRat :=
  let g := Int.gcd x.n (x.d : Int)
  if g = 0 then ⟨0, 0⟩ else ⟨x.n / (g : Int), x.d / g⟩

/-- Build a normalized rational from an integer numerator and denominator. -/
def mkPyRat (num den : Int) : PyRat :=
  if den < 0 then pyNorm ⟨-num, (-den).toNat⟩ else pyNorm ⟨num, den.toNat⟩

def pyOfInt (z : Int) : PyRat := ⟨z, 1⟩

def pyAdd (a b : PyRat) : PyRat := pyNorm ⟨a.n * b.d + b.n * a.d, a.d * b.d⟩

def pySub (a b : PyRat) : PyRat := pyNorm ⟨a.n * b.d - b.n * a.d, a.d * b.d⟩

def pyMul (a b : PyRat) : PyRat := pyNorm ⟨a.n * b.n, a.d * b.d⟩

def pyDiv (a b : PyRat) : PyRat := mkPyRat (a.n * b.d) (a.d * b.n)

def pyNeg (a : PyRat) : PyRat := ⟨-a.n, a.d⟩

def pyIsZero (a : PyRat) : Bool := a.n = 0

def pyIsNeg (a : PyRat) : Bool := a.n < 0

def pyAbs (a : PyRat) : PyRat := if a.n < 0 then ⟨-a.n, a.d⟩ else a

/-- Does the rational denote a mathematical integer. -/
def pyIsInt (a : PyRat) : Bool := (pyNorm a).d = 1

/-- The integer denoted by an integral rational (Python int(float)). -/
def pyToInt (a : PyRat) : Int := (pyNorm a).n

/-!
Numeric values of the calculator model.  Python eval over the arithmetic
fragment distinguishes int from float: + - * and unary minus preserve int,
while division always yields float.
-/

inductive Val where
  | VInt (z : Int)
  | VFloat (q : PyRat)
deriving DecidableEq, Repr

def toP : Val → PyRat
  | .VInt z => pyOfInt z
  | .VFloat q => q

def vAdd : Val → Val → Val
  | .VInt a, .VInt b => .VInt (a + b)
  | a, b => .VFloat (pyAdd (toP a) (toP b))

def vSub : Val → Val → Val
  | .VInt a, .VInt b => .VInt (a - b)
  | a, b => .VFloat (pySub (toP a) (toP b))

def vMul : Val → Val → Val
  | .VInt a, .VInt b => .VInt (a * b)
  | a, b => .VFloat (pyMul (toP a) (toP b))

def vNeg : Val → Val
  | .VInt z => .VInt (-z)
  | .VFloat q => .VFloat (pyNeg q)

/-- Python true division: always float, ZeroDivisionError on a zero denominator. -/
def vDiv (a b : Val) : Except Str Val :=
  if pyIsZero (toP b) then .error "division by zero".data
  else .ok (.VFloat (pyDiv (toP a) (toP b)))

/-- Does the value denote a mathematical integer (an int, or a float with zero
fractional part, as Python float.is_integer reports). -/
def isIntVal : Val → Bool
  | .VInt _ => true
  | .VFloat q => pyIsInt q

/-- Round half to even of a nonnegative rational, as C and Python fixed-point
formatting round (the argument is a magnitude already scaled by a power of ten). -/
def rneOfRat (x : PyRat) : Nat :=
  let f : Int := Int.fdiv x.n (x.d : Int)
  let r : Int := x.n - f * x.d
  (if 2 * r < (x.d : Int) then f
   else if (x.d : Int) < 2 * r then f + 1
   else if f % 2 = 0 then f else f + 1).toNat

/-- Left-pad a digit string with zeros to the requested width. -/
def padZeros (w : Nat) (cs : Str) : Str :=
  List.replicate (w - cs.length) '0' ++ cs

/-- Python fixed-point formatting of a (model) float to the given number of
decimal places, as the format specifications .4f and .2f produce. -/
def fixedFormat (decimals : Nat) (q : PyRat) : Str :=
  let scale : Nat := 10 ^ decimals
  let a := pyAbs q
  let m : Nat := rneOfRat ⟨a.n * scale, a.d⟩
  let sign : Str := if pyIsNeg q then ['-'] else []
  sign ++ natStr (m / scale) ++ '.' :: padZeros decimals (natStr (m % scale))

/-- Rendering of a calculator result, from agent_tools.py lines 107 to 113:
ints via str, integral floats via str(int(result)), other floats via the
.4f format with trailing zeros (and then a trailing dot) stripped. -/
def formatResult : Val → Str
  | .VInt z => intStr z
  | .VFloat q =>
    if pyIsInt q then intStr (pyToInt q)
    else rstrip '.' (rstrip '0' (fixedFormat 4 q))

/-!
Tokenizer and recursive-descent evaluator modelling the fragment of Python
eval reachable from the calculator: numeric literals (integer, decimal and
scientific-notation float), the binary operators + - * /, unary + and -,
and parentheses.  Identifiers and any other character are evaluation errors,
as the corresponding Python inputs raise SyntaxError or NameError inside
the same try block (the string restriction already passed only excludes
characters that are neither alphanumeric nor in the allow-list).
-/

inductive Tok where
  | num (v : Val)
  | plus
  | minus
  | star
  | slash
  | lparen
  | rparen
deriving DecidableEq, Repr

def digitsVal (ds : Str) : Nat :=
  ds.foldl (fun acc c => acc * 10 + (c.toNat - 48)) 0

/-- Lex one Python numeric literal: digits, an optional fractional part, an
optional exponent part.  Returns the value and the remaining characters. -/
def lexNumber (cs : Str) : Except Str (Val × Str) :=
  let ip := cs.takeWhile Char.isDigit
  let rest1 := cs.drop ip.length
  let fracParse : Str × Bool × Str :=
    match rest1 with
    | '.' :: r =>
      let fp := r.takeWhile Char.isDigit
      (fp, true, r.drop fp.length)
    | _ => ([], false, rest1)
  let fp := fracParse.1
  let hasDot := fracParse.2.1
  let rest2 := fracParse.2.2
  if ip.isEmpty && (fp.isEmpty || !hasDot) then
    .error "invalid decimal literal".data
  else
    let mant : Nat := digitsVal (ip ++ fp)
    let base : PyRat := mkPyRat (mant : Int) ((10 : Int) ^ fp.length)
    match rest2 with
    | 'e' :: r =>
      match r with
      | '+' :: r2 =>
        let ed := r2.takeWhile Char.isDigit
        if ed.isEmpty then .error "invalid decimal literal".data
        else .ok (.VFloat (pyMul base (pyOfInt ((10 : Int) ^ digitsVal ed))), r2.drop ed.length)
      | '-' :: r2 =>
        let ed := r2.takeWhile Char.isDigit
        if ed.isEmpty then .error "invalid decimal literal".data
        else .ok (.VFloat (pyDiv base (pyOfInt ((10 : Int) ^ digitsVal ed))), r2.drop ed.length)
      | _ =>
        let ed := r.takeWhile Char.isDigit
        if ed.isEmpty then .error "invalid decimal literal".data
        else .ok (.VFloat (pyMul base (pyOfInt ((10 : Int) ^ digitsVal ed))), r.drop ed.length)
    | 'E' :: r =>
      match r with
      | '+' :: r2 =>
        let ed := r2.takeWhile Char.isDigit
        if ed.isEmpty then .error "invalid decimal literal".data
        else .ok (.VFloat (pyMul base (pyOfInt ((10 : Int) ^ digitsVal ed))), r2.drop ed.length)
      | '-' :: r2 =>
        let ed := r2.takeWhile Char.isDigit
        if ed.isEmpty then .error "invalid decimal literal".data
        else .ok (.VFloat (pyDiv base (pyOfInt ((10 : Int) ^ digitsVal ed))), r2.drop ed.length)
      | _ =>
        let ed := r.takeWhile Char.isDigit
        if ed.isEmpty then .error "invalid decimal literal".data
        else .ok (.VFloat (pyMul base (pyOfInt ((10 : Int) ^ digitsVal ed))), r.drop ed.length)
    | _ =>
      if hasDot then .ok (.VFloat base, rest2)
      else .ok (.VInt (mant : Int), rest2)

/-- Fuelled tokenizer over the calculator character set. -/
def tokenizeAux : Nat → Str → Except Str (List Tok)
  | _, [] => .ok []
  | 0, _ => .error "tokenizer fuel exhausted".data
  | f + 1, c :: rest =>
    if isSpaceChar c then tokenizeAux f rest
    else if c = '+' then (tokenizeAux f rest).map (Tok.plus :: ·)
    else if c = '-' then (tokenizeAux f rest).map (Tok.minus :: ·)
    else if c = '*' then (tokenizeAux f rest).map (Tok.star :: ·)
    else if c = '/' then (tokenizeAux f rest).map (Tok.slash :: ·)
    else if c = '(' then (tokenizeAux f rest).map (Tok.lparen :: ·)
    else if c = ')' then (tokenizeAux f rest).map (Tok.rparen :: ·)
    else if c.isDigit || c = '.' then
      match lexNumber (c :: rest) with
      | .error e => .error e
      | .ok (v, remaining) => (tokenizeAux f remaining).map (Tok.num v :: ·)
    else .error "invalid syntax".data

def pyTokenize (cs : Str) : Except Str (List Tok) := tokenizeAux (cs.length + 1) cs

mutual

/-- expr := term ((plus | minus) term)*  evaluated left to right. -/
def pExpr : Nat → List Tok → Except Str (Val × List Tok)
  | 0, _ => .error "parser fuel exhausted".data
  | f + 1, ts =>
    match pTerm f ts with
    | .error e => .error e
    | .ok (v, r) => pExprRest f v r

def pExprRest : Nat → Val → List Tok → Except Str (Val × List Tok)
  | 0, _, _ => .error "parser fuel exhausted".data
  | f + 1, v, ts =>
    match ts with
    | .plus :: r =>
      match pTerm f r with
      | .error e => .error e
      | .ok (w, r2) => pExprRest f (vAdd v w) r2
    | .minus :: r =>
      match pTerm f r with
      | .error e => .error e
      | .ok (w, r2) => pExprRest f (vSub v w) r2
    | _ => .ok (v, ts)

/-- term := factor ((star | slash) factor)*  evaluated left to right. -/
def pTerm : Nat → List Tok → Except Str (Val × List Tok)
  | 0, _ => .error "parser fuel exhausted".data
  | f + 1, ts =>
    match pFactor f ts with
    | .error e => .error e
    | .ok (v, r) => pTermRest f v r

def pTermRest : Nat → Val → List Tok → Except Str (Val × List Tok)
  | 0, _, _ => .error "parser fuel exhausted".data
  | f + 1, v, ts =>
    match ts with
    | .star :: r =>
      match pFactor f r with
      | .error e => .error e
      | .ok (w, r2) => pTermRest f (vMul v w) r2
    | .slash :: r =>
      match pFactor f r with
      | .error e => .error e
      | .ok (w, r2) =>
        match vDiv v w with
        | .error e => .error e
        | .ok u => pTermRest f u r2
    | _ => .ok (v, ts)

/-- factor := (plus | minus) factor | number | lparen expr rparen. -/
def pFactor : Nat → List Tok → Except Str (Val × List Tok)
  | 0, _ => .error "parser fuel exhausted".data
  | f + 1, ts =>
    match ts with
    | .minus :: r =>
      match pFactor f r with
      | .error e => .error e
      | .ok (v, r2) => .ok (vNeg v, r2)
    | .plus :: r => pFactor f r
    | .num v :: r => .ok (v, r)
    | .lparen :: r =>
      match pExpr f r with
      | .error e => .error e
      | .ok (v, r2) =>
        match r2 with
        | .rparen :: r3 => .ok (v, r3)
        | _ => .error "invalid syntax".data
    | _ => .error "invalid syntax".data

end

/-- Model of Python eval on the arithmetic fragment: tokenize, parse the
whole token list as one expression, and require no trailing tokens. -/
def pyEval (cs : Str) : Except Str Val :=
  match pyTokenize cs with
  | .error e => .error e
  | .ok ts =>
    match pExpr (3 * (ts.length + 1)) ts with
    | .error e => .error e
    | .ok (v, rest) =>
      match rest with
      | [] => .ok v
      | _ => .error "invalid syntax".data

example : pyEval "10 + 5 * 2".data = .ok (.VInt 20) := by decide
example : pyEval "(20/100) * 50".data = .ok (.VFloat ⟨10, 1⟩) := by decide
example : pyEval "1e2".data = .ok (.VFloat ⟨100, 1⟩) := by decide
example : pyEval "7 / 2".data = .ok (.VFloat ⟨7, 2⟩) := by decide
example : pyEval "-3 - -4".data = .ok (.VInt 1) := by decide
example : (pyEval "1 / 0".data).isOk = false := by decide
example : (pyEval "import os".data).isOk = false := by decide

/-!
The two regex substitutions of agent_tools.py lines 95-97, applied when the
expression contains a percent sign.  The number pattern is digits with an
optional fraction; with the following percent sign as the next pattern
element, regex backtracking reduces to: take the fraction exactly when a
percent sign follows it, else require a percent sign right after the digits.
-/

/-- Match the regex piece of digits, optional fraction, then a percent sign.
Returns the matched number characters (without the percent sign) and the
rest after the percent sign. -/
def matchNumPct (cs : Str) : Option (Str × Str) :=
  let ds := cs.takeWhile Char.isDigit
  if ds.isEmpty then none
  else
    match cs.drop ds.length with
    | '.' :: r2 =>
      let fs := r2.takeWhile Char.isDigit
      if fs.isEmpty then none
      else
        match r2.drop fs.length with
        | '%' :: r4 => some (ds ++ '.' :: fs, r4)
        | _ => none
    | '%' :: r2 => some (ds, r2)
    | _ => none

/-- Match the regex piece of digits with an optional fraction (greedy, no
following constraint).  Returns the matched characters and the rest. -/
def matchNumPlain (cs : Str) : Option (Str × Str) :=
  let ds := cs.takeWhile Char.isDigit
  if ds.isEmpty then none
  else
    match cs.drop ds.length with
    | '.' :: r2 =>
      let fs := r2.takeWhile Char.isDigit
      if fs.isEmpty then some (ds, '.' :: r2)
      else some (ds ++ '.' :: fs, r2.drop fs.length)
    | r => some (ds, r)

/-- Match the full percentage-of idiom pattern at the head of the input:
number, percent sign, whitespace, the letters of, whitespace, number. -/
def matchPctOf (cs : Str) : Option (Str × Str × Str) :=
  match matchNumPct cs with
  | none => none
  | some (n1, r1) =>
    let ws1 := r1.takeWhile isSpaceChar
    if ws1.isEmpty then none
    else
      match r1.drop ws1.length with
      | 'o' :: 'f' :: r3 =>
        let ws2 := r3.takeWhile isSpaceChar
        if ws2.isEmpty then none
        else
          match matchNumPlain (r3.drop ws2.length) with
          | none => none
          | some (n2, r5) => some (n1, n2, r5)
      | _ => none

/-- re.sub for the percentage-of idiom: scan left to right, replacing each
leftmost match and continuing after it, advancing one character otherwise. -/
def subPctOf : Nat → Str → Str
  | 0, cs => cs
  | _, [] => []
  | f + 1, c :: rest =>
    match matchPctOf (c :: rest) with
    | some (n1, n2, r) =>
      '(' :: n1 ++ "/100) * ".data ++ n2 ++ subPctOf f r
    | none => c :: subPctOf f rest

/-- re.sub for the bare percentage pattern of a number followed by a percent
sign, replaced by the number divided by one hundred, parenthesized. -/
def subPct : Nat → Str → Str
  | 0, cs => cs
  | _, [] => []
  | f + 1, c :: rest =>
    match matchNumPct (c :: rest) with
    | some (n, r) => '(' :: n ++ "/100)".data ++ subPct f r
    | none => c :: subPct f rest

/-- The percentage handling of financial_calculator: both substitutions run,
in order, only when the expression contains a percent sign. -/
def percentRewrite (cs : Str) : Str :=
  if cs.contains '%' then
    let s1 := subPctOf (cs.length + 1) cs
    subPct (s1.length + 1) s1
  else cs

/-- The allow-list of agent_tools.py line 100. -/
def allowedChars : Str := "0123456789+-*/.() ".data

/-- The character test of agent_tools.py line 101: in the allow-list, or
alphanumeric (Char.isAlphanum models str.isalnum on the ASCII range). -/
def charOk (c : Char) : Bool := allowedChars.contains c || c.isAlphanum

/-- The stripped, percent-rewritten expression that the safety check and
eval operate on. -/
def calcPrepped (s : Str) : Str := percentRewrite (stripWs s)

/-- The safety check of financial_calculator: every character of the
expression, with twin stars collapsed to a caret, passes charOk. -/
def calcGuard (s : Str) : Bool :=
  let e := calcPrepped s
  (replaceL (e.length + 1) "**".data "^".data e).all charOk

/-- The evaluation stage of financial_calculator: carets are expanded back
to twin stars (inert, since a caret never passes the safety check) and the
expression goes to the eval model. -/
def calcEval (s : Str) : Except Str Val :=
  let e := calcPrepped s
  pyEval (replaceL (e.length + 1) "^".data "**".data e)

/-- financial_calculator from agent_tools.py lines 88-116: strip, rewrite
percentages, run the character check, then evaluate and format, converting
evaluation exceptions to a calculation-error string. -/
def financial_calculator (s : Str) : Str :=
  if calcGuard s then
    match calcEval s with
    | .ok v => formatResult v
    | .error m => "Calculation error: ".data ++ m
  else "Error: Invalid characters in expression".data

example : financial_calculator "10 + 5 * 2".data = "20".data := by decide
example : financial_calculator "20% of 50".data = "10".data := by decide
example : financial_calculator "1e2".data = "100".data := by decide
example : financial_calculator "import os".data
    = "Calculation error: invalid syntax".data := by decide
example : financial_calculator "5 $ 3".data
    = "Error: Invalid characters in expression".data := by decide
example : financial_calculator "150 * 1.05".data = "157.5".data := by decide
example : financial_calculator " 2**3 ".data
    = "Error: Invalid characters in expression".data := by decide
example : financial_calculator "7 / 2".data = "3.5".data := by decide
example : financial_calculator "12.5% of 80".data = "10".data := by decide
example : financial_calculator "50%".data = "0.5".data := by decide

/-- financial_ratio_calculator from agent_tools.py lines 119-146.  The
keyword arguments are modelled positionally with the Python default of zero
standing for an absent argument; float conversion of the supplied values is
the identity in the rational model. -/
def financial_ratio_calculator (metric_type : Str)
    (price earnings_per_share net_income shareholders_equity : PyRat) : Str :=
  if lowerL metric_type = "pe_ratio".data then
    if pyIsZero earnings_per_share then
      "P/E Ratio: Cannot calculate (EPS is zero)".data
    else
      "P/E Ratio: ".data ++ fixedFormat 2 (pyDiv price earnings_per_share)
  else if lowerL metric_type = "roe".data then
    if pyIsZero shareholders_equity then
      "ROE: Cannot calculate (Equity is zero)".data
    else
      "ROE: ".data
        ++ fixedFormat 2 (pyMul (pyDiv net_income shareholders_equity) (pyOfInt 100))
        ++ ['%']
  else "Unsupported metric type: ".data ++ metric_type

example : financial_ratio_calculator "pe_ratio".data (pyOfInt 120) (pyOfInt 6)
    (pyOfInt 0) (pyOfInt 0) = "P/E Ratio: 20.00".data := by decide
example : financial_ratio_calculator "PE_Ratio".data (pyOfInt 120) (pyOfInt 6)
    (pyOfInt 0) (pyOfInt 0) = "P/E Ratio: 20.00".data := by decide
example : financial_ratio_calculator "roe".data (pyOfInt 0) (pyOfInt 0)
    (pyOfInt 50) (pyOfInt 200) = "ROE: 25.00%".data := by decide
example : financial_ratio_calculator "current_ratio".data (pyOfInt 0) (pyOfInt 0)
    (pyOfInt 0) (pyOfInt 0) = "Unsupported metric type: current_ratio".data := by decide

/-- query_database from agent_tools.py lines 43-62.  The surrounding
pandas/sqlite machinery is abstracted: runQuery stands for
pd.read_sql_query (an exception becomes an error value), the query result
is the list of result rows, and toStr stands for DataFrame.to_string with
index=False applied to a frame with those rows.  The function itself is the
translated control flow of the method body. -/
def query_database {Row : Type} (toStr : List Row → Str)
    (runQuery : Str → Except Str (List Row)) (query : Str) : Str :=
  match runQuery query with
  | .error e => "Database error: ".data ++ e
  | .ok rows =>
    if rows.isEmpty then "No results found for the query.".data
    else if rows.length > 10 then
      toStr (rows.take 10)
        ++ "\n... (showing first 10 of ".data ++ natStr rows.length ++ " results)".data
    else toStr rows

/-- The single-quote character used around SQL string literals. -/
def sqChar : Char := Char.ofNat 39

/-- get_market_sentiment from agent_tools.py lines 148-174.  runQuery stands
for the query_database call on the freshly constructed database tool; the
optional company and sector filters build the where clause, and the days
parameter is received exactly as in the source signature. -/
def get_market_sentiment (runQuery : Str → Str)
    (company sector : Option Str) (days : Int) : Str :=
  let conditions : List Str :=
    (match company with
     | some c => if c.isEmpty then [] else ["company = ".data ++ sqChar :: c ++ [sqChar]]
     | none => [])
    ++
    (match sector with
     | some s => if s.isEmpty then [] else ["sector = ".data ++ sqChar :: s ++ [sqChar]]
     | none => [])
  let whereClause := if conditions.isEmpty then "1=1".data
    else List.intercalate " AND ".data conditions
  let query :=
    "\n        SELECT sentiment, COUNT(*) as count, AVG(sentiment_score) as avg_score\n        FROM financial_news \n        WHERE ".data
      ++ whereClause
      ++ "\n        GROUP BY sentiment\n        ORDER BY count DESC\n        ".data
  "Market sentiment analysis:\n".data ++ runQuery query

/-!
Guardrails, from guardrails.py.  The two advice regexes contain only
literal text and one alternation group each, so matching them against the
lowered response is the disjunction of plain substring tests.
-/

/-- The financial_disclaimer literal of guardrails.py lines 18-21, with the
indentation of the triple-quoted source string. -/
def financial_disclaimer : Str :=
  "\n        ⚠️ **Disclaimer**: This analysis is for educational purposes only. \n        Not financial advice. Consult qualified advisors before investing.\n        ".data

/-- re.search of the two advice patterns against the lowered response. -/
def containsAdvice (response : Str) : Bool :=
  let low := lowerL response
  containsSub low "you should buy".data || containsSub low "you should sell".data
    || containsSub low "you should invest".data
    || containsSub low "definitely buy".data || containsSub low "definitely sell".data
    || containsSub low "definitely invest".data

/-- The investment-terms mention test of guardrails.py lines 58-59. -/
def mentionsInvestments (response : Str) : Bool :=
  let low := lowerL response
  containsSub low "invest".data || containsSub low "buy".data
    || containsSub low "sell".data || containsSub low "portfolio".data
    || containsSub low "stock".data

/-- check_output_safety from guardrails.py lines 40-66: always allowed; the
disclaimer is appended when the response looks advice-like or mentions
investments and no disclaimer substring is present yet. -/
def check_output_safety (response : Str) : Bool × Str × Str :=
  if (containsAdvice response || mentionsInvestments response)
      && !containsSub (lowerL response) "disclaimer".data then
    (true, response ++ "\n\n".data ++ financial_disclaimer,
      "Financial disclaimer added".data)
  else (true, response, [])

/-!
Vector store manager, from vector_store.py.  The underlying index (Chroma
or FAISS object) is abstracted as a search function from query and k to
documents; the manager field is None until initialize_vector_store runs,
exactly as the constructor on line 30 leaves it.
-/

structure Doc where
  page_content : Str
  company : Option Str
  date : Option Str
deriving DecidableEq, Repr

structure VSManager where
  vector_store : Option (Str → Nat → List Doc)

/-- The manager as the constructor leaves it (vector_store.py line 30). -/
def mkVSManager : VSManager := ⟨none⟩

/-- similarity_search from vector_store.py lines 90-95: raising ValueError
is modelled as returning an error value. -/
def similarity_search (m : VSManager) (query : Str) (k : Nat) :
    Except Str (List Doc) :=
  match m.vector_store with
  | none => .error "Vector store not initialized".data
  | some f => .ok (f query k)

/-- initialize_vector_store from vector_store.py lines 79-88: for the two
supported store types the store field is populated (the store built from
the documents is abstracted as buildStore); any other configured type
raises. -/
def initialize_vector_store (m : VSManager) (vector_db_type : Str)
    (buildStore : Str → Nat → List Doc) : Except Str VSManager :=
  if lowerL vector_db_type = "chroma".data || lowerL vector_db_type = "faiss".data then
    .ok { m with vector_store := some buildStore }
  else .error ("Unsupported vector database type: ".data ++ vector_db_type)

/-!
The agent, from financial_agent.py.  LLM clients and the agent executor are
abstracted as functions returning Except (an exception inside the
corresponding try block is an error value); the remaining fields mirror the
attributes the modelled methods read.
-/

inductive Msg where
  | human (content : Str)
  | ai (content : Str)
deriving DecidableEq, Repr

structure Agent where
  enable_rag : Bool
  enable_tools : Bool
  openai_client : Option (Str → Str → Except Str Str)
  ollama_client : Option (Str → Str → Except Str Str)
  agent_executor : Option (Str → List Msg → Except Str Str)
  vector_store_manager : Option VSManager
  vector_store_present : Bool
  conversation_history : List Msg

/-- Python list slicing with a negative start: the last n elements. -/
def takeLast {α : Type} (n : Nat) (l : List α) : List α := l.drop (l.length - n)

/-- The pipe-separated metadata rendering of financial_agent.py lines
152-158: company and date entries when those metadata keys are present. -/
def metadataStr (d : Doc) : Str :=
  List.intercalate " | ".data
    ((match d.company with
      | some c => ["Company: ".data ++ c]
      | none => [])
     ++
     (match d.date with
      | some dt => ["Date: ".data ++ dt]
      | none => []))

/-- One numbered context part, financial_agent.py line 159. -/
def renderDoc (i : Nat) (d : Doc) : Str :=
  '[' :: natStr i ++ "] ".data ++ d.page_content ++ " (".data ++ metadataStr d ++ [')']

/-- The enumerate loop of financial_agent.py lines 151-159, building the
context parts list with a running index. -/
def buildParts (i : Nat) : List Doc → List Str
  | [] => []
  | d :: ds => renderDoc i d :: buildParts (i + 1) ds

/-- retrieve_relevant_context from financial_agent.py lines 142-165: empty
when the manager or store is missing, empty on a search exception, else the
numbered parts joined by blank lines. -/
def retrieve_relevant_context (a : Agent) (query : Str) (k : Nat) : Str :=
  match a.vector_store_manager with
  | none => []
  | some m =>
    if a.vector_store_present then
      match similarity_search m query k with
      | .error _ => []
      | .ok docs => List.intercalate "\n\n".data (buildParts 1 docs)
    else []

/-- The system prompt of the direct-LLM fallback, financial_agent.py
lines 182-190. -/
def expertPrompt : Str := "You are a financial analysis expert.".data

/-- Wrap one client call as the enclosing try/except does: an exception
becomes the LLM-error string. -/
def wrapLLM (r : Except Str Str) : Str :=
  match r with
  | .ok s => s
  | .error e => "LLM error: ".data ++ e

/-- get_llm_response from financial_agent.py lines 167-194: the agent path
runs when requested, configured and available, falling through to the
direct path on an executor exception; the direct path tries the primary
client, then the secondary, then the fixed unavailability string. -/
def get_llm_response (a : Agent) (prompt : Str) (use_agent : Bool) : Str :=
  let fallback : Str :=
    match a.openai_client with
    | some f => wrapLLM (f expertPrompt prompt)
    | none =>
      match a.ollama_client with
      | some g => wrapLLM (g expertPrompt prompt)
      | none => "No LLM client available".data
  if use_agent && a.agent_executor.isSome && a.enable_tools then
    match a.agent_executor with
    | some ex =>
      match ex prompt (takeLast 10 a.conversation_history) with
      | .ok out => out
      | .error _ => fallback
    | none => fallback
  else fallback

structure AnalysisResult where
  query : Str
  context : Str
  response : Str
  sources : List Str
  method : Str
deriving DecidableEq, Repr

/-- The context-augmented prompt template of financial_agent.py
lines 217-224. -/
def enhancedTemplate (user_query context : Str) : Str :=
  "\n            User Question: ".data ++ user_query
    ++ "\n\n            Relevant Context:\n            ".data ++ context
    ++ "\n\n            Please analyze this query using the provided context and your financial expertise.\n            ".data

/-- analyze_query from financial_agent.py lines 196-235: retrieve context
when RAG is enabled, augment the query when context is non-empty, get the
LLM response, and append the user and assistant turns to the history. -/
def analyze_query (a : Agent) (user_query : Str) : AnalysisResult × Agent :=
  let context := if a.enable_rag then retrieve_relevant_context a user_query 5 else []
  let enhanced_query := if context.isEmpty then user_query
    else enhancedTemplate user_query context
  let response := get_llm_response a enhanced_query true
  ({ query := user_query, context := context, response := response,
     sources := [], method := "hybrid".data },
   { a with conversation_history :=
      a.conversation_history ++ [Msg.human user_query, Msg.ai response] })

example : natStr 2000 = "2000".data := by decide
example : intStr (-35) = "-35".data := by decide
example : stripWs "  ab ".data = "ab".data := by decide
example : containsSub "xdisclaimery".data "disclaimer".data = true := by decide
example : replaceL 10 "**".data "^".data "2**3".data = "2^3".data := by decide
example : fixedFormat 2 (pyOfInt 20) = "20.00".data := by decide
example : formatResult (.VFloat ⟨10, 1⟩) = "10".data := by decide
example : formatResult (.VFloat ⟨1, 4⟩) = "0.25".data := by decide
example : formatResult (.VFloat ⟨-1, 2⟩) = "-0.5".data := by decide
example : formatResult (.VFloat ⟨1, 3⟩) = "0.3333".data := by decide
example : formatResult (.VInt 20) = "20".data := by decide

/-!
Helper lemmas.
-/

lemma digitChar_ne_dot (k : Nat) : digitChar k ≠ '.' := by
  unfold digitChar
  split <;> decide

lemma natStrAux_ne_dot : ∀ (f n : Nat), '.' ∉ natStrAux f n := by
  intro f
  induction f with
  | zero =>
    intro n h
    simp only [natStrAux, List.mem_singleton] at h
    exact digitChar_ne_dot n h.symm
  | succ f ih =>
    intro n h
    simp only [natStrAux] at h
    by_cases hn : n < 10
    · rw [if_pos hn] at h
      simp only [List.mem_singleton] at h
      exact digitChar_ne_dot n h.symm
    · rw [if_neg hn] at h
      rcases List.mem_append.mp h with h1 | h2
      · exact ih (n / 10) h1
      · simp only [List.mem_singleton] at h2
        exact digitChar_ne_dot (n % 10) h2.symm

lemma natStr_ne_dot (n : Nat) : '.' ∉ natStr n := natStrAux_ne_dot n n

lemma intStr_ne_dot (z : Int) : '.' ∉ intStr z := by
  unfold intStr
  by_cases hz : z < 0
  · rw [if_pos hz]
    intro h
    rcases List.mem_cons.mp h with h1 | h2
    · exact absurd h1 (by decide)
    · exact natStr_ne_dot z.natAbs h2
  · rw [if_neg hz]
    exact natStr_ne_dot z.toNat

lemma containsSub_append_right (h t pat : Str) (hc : containsSub t pat = true) :
    containsSub (h ++ t) pat = true := by
  induction h with
  | nil => simpa using hc
  | cons a h' ih =>
    simp only [List.cons_append, containsSub, Bool.or_eq_true]
    exact Or.inr ih

lemma buildParts_eq (ds : List Doc) :
    ∀ i, buildParts i ds = (List.enumFrom i ds).map fun p => renderDoc p.1 p.2 := by
  induction ds with
  | nil => intro i; simp [buildParts, List.enumFrom]
  | cons d t ih => intro i; simp [buildParts, List.enumFrom, ih]

/-!
Claims.
-/

/-- Claim C1, counterexample: the input 1e2 contains the letter e, which is
outside the allow-list of digits, operators and whitespace, yet
financial_calculator does not reject it: the check also admits alphanumeric
characters, the expression reaches evaluation, and the returned string is
the evaluated value 100, not an error string of either error shape. -/
theorem calculator_allowlist_counterexample :
    financial_calculator "1e2".data = "100".data
    ∧ 'e' ∈ "1e2".data
    ∧ ('e' ∈ allowedChars → False)
    ∧ financial_calculator "1e2".data ≠ "Error: Invalid characters in expression".data
    ∧ isPrefixL "Calculation error".data (financial_calculator "1e2".data) = false := by
  refine ⟨by decide, by decide, by decide, by decide, by decide⟩

/-- Claim C1, amended: the safety check admits any character that is in the
allow-list or alphanumeric; whenever the stripped, percent-rewritten
expression fails that check (calcGuard), financial_calculator returns the
invalid-characters error string and the expression is never evaluated.
Letter-containing input can pass the check and reach evaluation; for the
input import os specifically, evaluation itself fails, so a
calculation-error string is returned without anything being executed. -/
theorem calculator_allowlist_amended :
    (∀ s : Str, calcGuard s = false →
      financial_calculator s = "Error: Invalid characters in expression".data)
    ∧ isPrefixL "Calculation error: ".data (financial_calculator "import os".data) = true := by
  constructor
  · intro s h
    simp [financial_calculator, h]
  · decide

/-- Claim C1, witness: a concrete input with a character that is neither in
the allow-list nor alphanumeric is rejected by the check. -/
theorem calculator_allowlist_witness :
    calcGuard "5 $ 3".data = false
    ∧ financial_calculator "5 $ 3".data
        = "Error: Invalid characters in expression".data :=
  ⟨by decide, calculator_allowlist_amended.1 "5 $ 3".data (by decide)⟩

/-- Claim C2: the two concrete evaluations hold, and whenever the check
passes and evaluation succeeds, an integer-valued result is rendered with
no decimal point while a non-integer float is rendered by the four-decimal
fixed format with trailing zeros and a trailing dot stripped. -/
theorem calculator_results_theorem :
    financial_calculator "10 + 5 * 2".data = "20".data
    ∧ financial_calculator "20% of 50".data = "10".data
    ∧ (∀ (s : Str) (v : Val), calcGuard s = true → calcEval s = .ok v →
        isIntVal v = true → '.' ∉ financial_calculator s)
    ∧ (∀ (s : Str) (q : PyRat), calcGuard s = true → calcEval s = .ok (.VFloat q) →
        pyIsInt q = false →
        financial_calculator s = rstrip '.' (rstrip '0' (fixedFormat 4 q))) := by
  refine ⟨by decide, by decide, ?_, ?_⟩
  · intro s v hg he hi
    simp only [financial_calculator, hg, if_pos, he]
    cases v with
    | VInt z => exact intStr_ne_dot z
    | VFloat q =>
      simp only [isIntVal] at hi
      simp only [formatResult, hi, if_pos]
      exact intStr_ne_dot (pyToInt q)
  · intro s q hg he hq
    simp only [financial_calculator, hg, if_pos, he, formatResult, hq]
    simp

/-- Claim C2, witness: concrete integer-valued and non-integer-valued
expressions instantiating both universal parts. -/
theorem calculator_results_witness :
    (calcGuard "3 + 4".data = true ∧ calcEval "3 + 4".data = .ok (.VInt 7)
      ∧ isIntVal (.VInt 7) = true ∧ '.' ∉ financial_calculator "3 + 4".data)
    ∧ (calcGuard "7 / 2".data = true
      ∧ calcEval "7 / 2".data = .ok (.VFloat ⟨7, 2⟩)
      ∧ pyIsInt ⟨7, 2⟩ = false
      ∧ financial_calculator "7 / 2".data
          = rstrip '.' (rstrip '0' (fixedFormat 4 ⟨7, 2⟩))) :=
  ⟨⟨by decide, by decide, by decide,
    calculator_results_theorem.2.2.1 "3 + 4".data (.VInt 7)
      (by decide) (by decide) (by decide)⟩,
   ⟨by decide, by decide, by decide,
    calculator_results_theorem.2.2.2 "7 / 2".data ⟨7, 2⟩
      (by decide) (by decide) (by decide)⟩⟩

/-- Claim C3: the concrete pe_ratio computation renders 20.00; a zero
earnings-per-share value yields the cannot-calculate message for every
other argument; any metric type that lowercases to neither pe_ratio nor
roe yields the unsupported-metric string. -/
theorem ratio_calculator_theorem :
    financial_ratio_calculator "pe_ratio".data (pyOfInt 120) (pyOfInt 6)
        (pyOfInt 0) (pyOfInt 0) = "P/E Ratio: 20.00".data
    ∧ (∀ (p eps ni eq : PyRat), pyIsZero eps = true →
        financial_ratio_calculator "pe_ratio".data p eps ni eq
          = "P/E Ratio: Cannot calculate (EPS is zero)".data)
    ∧ (∀ (m : Str) (p e ni eq : PyRat),
        lowerL m ≠ "pe_ratio".data → lowerL m ≠ "roe".data →
        financial_ratio_calculator m p e ni eq
          = "Unsupported metric type: ".data ++ m) := by
  refine ⟨by decide, ?_, ?_⟩
  · intro p eps ni eq h
    unfold financial_ratio_calculator
    rw [if_pos (by decide), if_pos h]
  · intro m p e ni eq h1 h2
    unfold financial_ratio_calculator
    rw [if_neg h1, if_neg h2]

/-- Claim C3, witness: concrete instantiations of both universal parts. -/
theorem ratio_calculator_witness :
    (pyIsZero (pyOfInt 0) = true
      ∧ financial_ratio_calculator "pe_ratio".data (pyOfInt 120) (pyOfInt 0)
          (pyOfInt 0) (pyOfInt 0) = "P/E Ratio: Cannot calculate (EPS is zero)".data)
    ∧ (lowerL "current_ratio".data ≠ "pe_ratio".data
      ∧ lowerL "current_ratio".data ≠ "roe".data
      ∧ financial_ratio_calculator "current_ratio".data (pyOfInt 1) (pyOfInt 2)
          (pyOfInt 3) (pyOfInt 4)
          = "Unsupported metric type: ".data ++ "current_ratio".data) :=
  ⟨⟨by decide,
    ratio_calculator_theorem.2.1 (pyOfInt 120) (pyOfInt 0) (pyOfInt 0) (pyOfInt 0)
      (by decide)⟩,
   ⟨by decide, by decide,
    ratio_calculator_theorem.2.2 "current_ratio".data (pyOfInt 1) (pyOfInt 2)
      (pyOfInt 3) (pyOfInt 4) (by decide) (by decide)⟩⟩

/-- Claim C4: query_database is a total function into strings (a failing
query execution is returned as a database-error string, never raised), and
when the query succeeds with more than ten rows the rendered text is built
from the first ten rows only, followed by the count suffix reporting the
full result size. -/
theorem query_database_theorem :
    ∀ (Row : Type) (toStr : List Row → Str)
      (runQuery : Str → Except Str (List Row)) (query : Str),
    (∀ e, runQuery query = .error e →
      query_database toStr runQuery query = "Database error: ".data ++ e)
    ∧ (∀ rows, runQuery query = .ok rows → 10 < rows.length →
        query_database toStr runQuery query
          = toStr (rows.take 10) ++ "\n... (showing first 10 of ".data
              ++ natStr rows.length ++ " results)".data)
    ∧ (∀ rows, runQuery query = .ok rows → rows ≠ [] → rows.length ≤ 10 →
        query_database toStr runQuery query = toStr rows) := by
  intro Row toStr runQuery query
  refine ⟨fun e he => ?_, fun rows hr hl => ?_, fun rows hr hne hle => ?_⟩
  · simp [query_database, he]
  · have h0 : rows.isEmpty = false := by
      cases rows with
      | nil => simp at hl
      | cons a t => rfl
    simp [query_database, hr, h0, hl]
  · have h0 : rows.isEmpty = false := by
      cases rows with
      | nil => exact absurd rfl hne
      | cons a t => rfl
    have h1 : ¬ rows.length > 10 := by omega
    simp [query_database, hr, h0, h1]

/-- Claim C4, witness: a twelve-row result is truncated to its first ten
rows with the count suffix, and a failing execution returns the error
string, on concrete data. -/
theorem query_database_witness :
    (((fun _ => Except.ok (List.range 12)) : Str → Except Str (List Nat)) "q".data
        = .ok (List.range 12) ∧ 10 < (List.range 12).length
      ∧ query_database (fun rows => List.intercalate " ".data (rows.map natStr))
          (fun _ => .ok (List.range 12)) "q".data
        = List.intercalate " ".data (((List.range 12).take 10).map natStr)
            ++ "\n... (showing first 10 of ".data ++ natStr (List.range 12).length
            ++ " results)".data)
    ∧ query_database (fun rows => List.intercalate " ".data (rows.map natStr))
        ((fun _ => .error "no such table".data) : Str → Except Str (List Nat)) "q".data
      = "Database error: ".data ++ "no such table".data :=
  ⟨⟨rfl, by decide,
    (query_database_theorem Nat (fun rows => List.intercalate " ".data (rows.map natStr))
        (fun _ => .ok (List.range 12)) "q".data).2.1 (List.range 12) rfl (by decide)⟩,
   (query_database_theorem Nat (fun rows => List.intercalate " ".data (rows.map natStr))
       (fun _ => .error "no such table".data) "q".data).1 "no such table".data rfl⟩

/-- Claim C5: on a manager in the state the constructor leaves it, before
initialize_vector_store has populated the store, similarity_search fails
with the not-initialized error for every query and every k. -/
theorem similarity_search_uninitialized_theorem :
    ∀ (query : Str) (k : Nat),
      similarity_search mkVSManager query k
        = .error "Vector store not initialized".data := by
  intro query k
  rfl

/-- Claim C6: with the store ready, an empty retrieval result assembles to
the empty string, and any retrieval result assembles to the numbered parts,
indexed from one in retrieval order, joined by blank lines, where each part
renders the content and the pipe-separated company and date metadata. -/
theorem context_assembly_theorem :
    ∀ (a : Agent) (m : VSManager) (f : Str → Nat → List Doc) (query : Str) (k : Nat),
      a.vector_store_manager = some m → a.vector_store_present = true →
      m.vector_store = some f →
      (f query k = [] → retrieve_relevant_context a query k = [])
      ∧ retrieve_relevant_context a query k
          = List.intercalate "\n\n".data
              ((List.enumFrom 1 (f query k)).map fun p => renderDoc p.1 p.2) := by
  intro a m f query k h1 h2 h3
  have hmain : retrieve_relevant_context a query k
      = List.intercalate "\n\n".data
          ((List.enumFrom 1 (f query k)).map fun p => renderDoc p.1 p.2) := by
    simp [retrieve_relevant_context, h1, h2, similarity_search, h3, buildParts_eq]
  refine ⟨fun hempty => ?_, hmain⟩
  rw [hmain, hempty]
  rfl

/-- Concrete documents for the context-assembly witness. -/
def sampleDocs : List Doc :=
  [⟨"TechCorp stock rises".data, some "TechCorp".data, some "2024-01-02".data⟩,
   ⟨"Markets mixed".data, none, none⟩]

def sampleSearch : Str → Nat → List Doc := fun _ _ => sampleDocs

def emptySearch : Str → Nat → List Doc := fun _ _ => []

def sampleAgent : Agent :=
  { enable_rag := true, enable_tools := false, openai_client := none,
    ollama_client := none, agent_executor := none,
    vector_store_manager := some ⟨some sampleSearch⟩,
    vector_store_present := true, conversation_history := [] }

def emptyStoreAgent : Agent :=
  { sampleAgent with vector_store_manager := some ⟨some emptySearch⟩ }

/-- Claim C6, witness: a two-document retrieval assembles to the numbered
joined text, and an empty retrieval assembles to the empty string. -/
theorem context_assembly_witness :
    retrieve_relevant_context sampleAgent "tech".data 5
        = "[1] TechCorp stock rises (Company: TechCorp | Date: 2024-01-02)\n\n[2] Markets mixed ()".data
    ∧ retrieve_relevant_context sampleAgent "tech".data 5
        = List.intercalate "\n\n".data
            ((List.enumFrom 1 (sampleSearch "tech".data 5)).map fun p => renderDoc p.1 p.2)
    ∧ retrieve_relevant_context emptyStoreAgent "tech".data 5 = [] :=
  ⟨by decide,
   (context_assembly_theorem sampleAgent ⟨some sampleSearch⟩ sampleSearch
      "tech".data 5 rfl rfl rfl).2,
   (context_assembly_theorem emptyStoreAgent ⟨some emptySearch⟩ emptySearch
      "tech".data 5 rfl rfl rfl).1 rfl⟩

lemma check_output_noop (x : Str)
    (h : containsSub (lowerL x) "disclaimer".data = true) :
    check_output_safety x = (true, x, []) := by
  unfold check_output_safety
  rw [if_neg (by simp [h])]

/-- Claim C7: check_output_safety always allows, and a second application to
the possibly-modified text of a first application returns that text
unchanged, because the appended disclaimer block itself contains the
disclaimer word the presence test searches for case-insensitively. -/
theorem output_safety_idempotent_theorem :
    ∀ r : Str, (check_output_safety r).1 = true
      ∧ (check_output_safety (check_output_safety r).2.1).2.1
          = (check_output_safety r).2.1 := by
  intro r
  cases hcond : (containsAdvice r || mentionsInvestments r)
      && !containsSub (lowerL r) "disclaimer".data with
  | false =>
    constructor
    · simp [check_output_safety, hcond]
    · simp [check_output_safety, hcond]
  | true =>
    have hd : containsSub (lowerL financial_disclaimer) "disclaimer".data = true := by
      decide
    have hkey : containsSub (lowerL (r ++ "\n\n".data ++ financial_disclaimer))
        "disclaimer".data = true := by
      have h2 := containsSub_append_right (lowerL (r ++ "\n\n".data))
        (lowerL financial_disclaimer) "disclaimer".data hd
      simpa [lowerL, List.map_append] using h2
    constructor
    · simp [check_output_safety, hcond]
    · have hm : (check_output_safety r).2.1
          = r ++ "\n\n".data ++ financial_disclaimer := by
        simp [check_output_safety, hcond]
      rw [hm, check_output_noop _ hkey]

/-- Claim C8: whenever the agent path is disabled or unavailable (the
conjunction guarding it is false), get_llm_response uses the primary client
when configured, else the secondary client when configured, and returns the
fixed no-client string when neither is configured, raising nothing. -/
theorem llm_fallback_theorem :
    ∀ (a : Agent) (prompt : Str) (use_agent : Bool),
      (use_agent && a.agent_executor.isSome && a.enable_tools) = false →
      (∀ f, a.openai_client = some f →
        get_llm_response a prompt use_agent = wrapLLM (f expertPrompt prompt))
      ∧ (∀ g, a.openai_client = none → a.ollama_client = some g →
          get_llm_response a prompt use_agent = wrapLLM (g expertPrompt prompt))
      ∧ (a.openai_client = none → a.ollama_client = none →
          get_llm_response a prompt use_agent = "No LLM client available".data) := by
  intro a prompt ua h
  refine ⟨fun f hf => ?_, fun g ho hg => ?_, fun ho hl => ?_⟩ <;>
    simp [get_llm_response, h, *]

def noClientAgent : Agent :=
  { enable_rag := false, enable_tools := false, openai_client := none,
    ollama_client := none, agent_executor := none,
    vector_store_manager := none, vector_store_present := false,
    conversation_history := [] }

def okClient : Str → Str → Except Str Str := fun _ u => .ok u

def openaiAgent : Agent := { noClientAgent with openai_client := some okClient }

def ollamaAgent : Agent := { noClientAgent with ollama_client := some okClient }

/-- Claim C8, witness: concrete agents with no clients, a primary client
only, and a secondary client only. -/
theorem llm_fallback_witness :
    ((true && noClientAgent.agent_executor.isSome && noClientAgent.enable_tools) = false
      ∧ get_llm_response noClientAgent "hi".data true = "No LLM client available".data)
    ∧ get_llm_response openaiAgent "hi".data true
        = wrapLLM (okClient expertPrompt "hi".data)
    ∧ get_llm_response ollamaAgent "hi".data true
        = wrapLLM (okClient expertPrompt "hi".data) :=
  ⟨⟨rfl, (llm_fallback_theorem noClientAgent "hi".data true rfl).2.2 rfl rfl⟩,
   (llm_fallback_theorem openaiAgent "hi".data true rfl).1 okClient rfl,
   (llm_fallback_theorem ollamaAgent "hi".data true rfl).2.1 okClient rfl rfl⟩

/-- Claim C9: analyze_query leaves the new conversation history equal to
the prior history with exactly the user turn for the original query and the
assistant turn for the produced response appended, in that order; taking
the prior length back out returns the prior turns unchanged. -/
theorem history_append_theorem :
    ∀ (a : Agent) (user_query : Str),
      (analyze_query a user_query).2.conversation_history
        = a.conversation_history
            ++ [Msg.human user_query, Msg.ai (analyze_query a user_query).1.response]
      ∧ ((analyze_query a user_query).2.conversation_history).take
            a.conversation_history.length
          = a.conversation_history := by
  intro a user_query
  have h : (analyze_query a user_query).2.conversation_history
      = a.conversation_history
          ++ [Msg.human user_query, Msg.ai (analyze_query a user_query).1.response] := rfl
  refine ⟨h, ?_⟩
  rw [h]
  exact List.take_left a.conversation_history _

/-- Claim C10: get_market_sentiment ignores its days parameter: for every
database executor, company filter and sector filter, any two days values
give the same result string. -/
theorem sentiment_days_independent_theorem :
    ∀ (runQuery : Str → Str) (company sector : Option Str) (d1 d2 : Int),
      get_market_sentiment runQuery company sector d1
        = get_market_sentiment runQuery company sector d2 := by
  intro runQuery company sector d1 d2
  rfl
